import Mathlib

/-!
Verification development for the DRV8305 gate-driver core
(`src/DRV8305_Driver/...`): the wire-packet codec, the per-register
write-confirmation comparators, and the three-level hierarchical polling
state machine, shallowly embedded in Lean.

Machine integers are modelled as `Nat`.  All C arithmetic in this core is
on small values (4-bit addresses, 11-bit payloads, 16-bit packets) where no
overflow can occur, except the `uint32_t` cycle counter, whose increment is
modelled with an explicit `% 2^32`.
-/

namespace DRV8305

/-! ### Constants from `drv8305_macros.h` and `drv8305_register_map.h` -/

def DRV8305_NUMBER_OF_REGISTERS : Nat := 11
def DRV8305_STATUS_POLLING_INTERVAL_MS : Nat := 250
def DRV8305_STANDARD_TASK_DELAY_TIMEOUT : Nat := 500
def DRV8305_REGISTER_SWITCH_DELAY_MS : Nat := 50

def DRV8305_STATUS_01_ARRAY_INDEX : Nat := 0
def DRV8305_STATUS_02_ARRAY_INDEX : Nat := 1
def DRV8305_STATUS_03_ARRAY_INDEX : Nat := 2
def DRV8305_STATUS_04_ARRAY_INDEX : Nat := 3
def DRV8305_CONTROL_05_ARRAY_INDEX : Nat := 4
def DRV8305_CONTROL_06_ARRAY_INDEX : Nat := 5
def DRV8305_CONTROL_07_ARRAY_INDEX : Nat := 6
def DRV8305_CONTROL_09_ARRAY_INDEX : Nat := 7
def DRV8305_CONTROL_0A_ARRAY_INDEX : Nat := 8
def DRV8305_CONTROL_0B_ARRAY_INDEX : Nat := 9
def DRV8305_CONTROL_0C_ARRAY_INDEX : Nat := 10

/-- Register addresses (`drv8305_register_map.h`). -/
def DRV8305_STATUS_01 : Nat := 0x01
def DRV8305_STATUS_02 : Nat := 0x02
def DRV8305_STATUS_03 : Nat := 0x03
def DRV8305_STATUS_04 : Nat := 0x04
def DRV8305_CONTROL_05 : Nat := 0x05
def DRV8305_CONTROL_06 : Nat := 0x06
def DRV8305_CONTROL_07 : Nat := 0x07
def DRV8305_CONTROL_09 : Nat := 0x09
def DRV8305_CONTROL_0A : Nat := 0x0A
def DRV8305_CONTROL_0B : Nat := 0x0B
def DRV8305_CONTROL_0C : Nat := 0x0C

/-! Bitfield masks (`drv8305_macros.h`).  The mask *values* are transcribed
exactly as the C `#define`s compute them; in particular the register-0x0A
gain masks are `0x07 <<< k` (three bits) even though the adjacent source
comments claim two-bit fields. -/

def DRV8305_CTRL05_CTRL06_TDRIVE_MASK : Nat := 0x03 <<< 8
def DRV8305_CTRL05_CTRL06_ISINK_MASK : Nat := 0x0F <<< 4
def DRV8305_CTRL05_CTRL06_ISOURCE_MASK : Nat := 0x0F <<< 0

def DRV8305_CTRL07_VCPH_FREQ_MASK : Nat := 0x01 <<< 10
def DRV8305_CTRL07_COMM_OPTION_MASK : Nat := 0x01 <<< 9
def DRV8305_CTRL07_PWM_MODE_MASK : Nat := 0x03 <<< 7
def DRV8305_CTRL07_DEAD_TIME_MASK : Nat := 0x07 <<< 4
def DRV8305_CTRL07_TBLANK_MASK : Nat := 0x03 <<< 2
def DRV8305_CTRL07_TVDS_MASK : Nat := 0x03 <<< 0

def DRV8305_CTRL09_FLIP_OTSD_MASK : Nat := 0x01 <<< 10
def DRV8305_CTRL09_DIS_PVDD_UVLO2_MASK : Nat := 0x01 <<< 9
def DRV8305_CTRL09_DIS_GDRV_FAULT_MASK : Nat := 0x01 <<< 8
def DRV8305_CTRL09_EN_SNS_CLAMP_MASK : Nat := 0x01 <<< 7
def DRV8305_CTRL09_WD_DLY_MASK : Nat := 0x03 <<< 5
def DRV8305_CTRL09_DIS_SNS_OCP_MASK : Nat := 0x01 <<< 4
def DRV8305_CTRL09_WD_EN_MASK : Nat := 0x01 <<< 3
def DRV8305_CTRL09_SLEEP_MASK : Nat := 0x01 <<< 2
def DRV8305_CTRL09_CLR_FLTS_MASK : Nat := 0x01 <<< 1
def DRV8305_CTRL09_SET_VCPH_UV_MASK : Nat := 0x01 <<< 0

def DRV8305_CTRL0A_DC_CAL_CH3_MASK : Nat := 0x01 <<< 10
def DRV8305_CTRL0A_DC_CAL_CH2_MASK : Nat := 0x01 <<< 9
def DRV8305_CTRL0A_DC_CAL_CH1_MASK : Nat := 0x01 <<< 8
def DRV8305_CTRL0A_CS_BLANK_MASK : Nat := 0x03 <<< 6
def DRV8305_CTRL0A_GAIN_CH3_MASK : Nat := 0x07 <<< 4
def DRV8305_CTRL0A_GAIN_CH2_MASK : Nat := 0x07 <<< 2
def DRV8305_CTRL0A_GAIN_CH1_MASK : Nat := 0x07 <<< 0

def DRV8305_CTRL0B_VREF_SCALE_MASK : Nat := 0x03 <<< 8
def DRV8305_CTRL0B_SLEEP_DELAY_MASK : Nat := 0x03 <<< 3
def DRV8305_CTRL0B_DIS_VREG_PWRGD_MASK : Nat := 0x01 <<< 2
def DRV8305_CTRL0B_VREG_UV_LEVEL_MASK : Nat := 0x03 <<< 0

def DRV8305_CTRL0C_VDS_LEVEL_MASK : Nat := 0x1F <<< 3
def DRV8305_CTRL0C_VDS_MODE_MASK : Nat := 0x07 <<< 0

/-! ### Configuration record (`drv8305_control_registers_definitions.h`,
`drv8305_configuration.h`).  Every field is a C `uint16_t`, modelled as
`Nat`. -/

structure drv8305_ctrl05_hs_gate_t where
  tdrive : Nat
  isink : Nat
  isource : Nat
deriving DecidableEq, Repr

structure drv8305_ctrl06_ls_gate_t where
  tdrive : Nat
  isink : Nat
  isource : Nat
deriving DecidableEq, Repr

structure drv8305_ctrl07_gate_t where
  vcph_freq : Nat
  comm_option : Nat
  pwm_mode : Nat
  dead_time : Nat
  tblank : Nat
  tvds : Nat
deriving DecidableEq, Repr

structure drv8305_ctrl09_ic_op_t where
  flip_otsd : Nat
  dis_pvdd_uvlo2 : Nat
  dis_gdrv_fault : Nat
  en_sns_clamp : Nat
  wd_dly : Nat
  dis_sns_ocp : Nat
  wd_en : Nat
  sleep : Nat
  clr_flts : Nat
  set_vcph_uv : Nat
deriving DecidableEq, Repr

structure drv8305_ctrl0A_shunt_t where
  dc_cal_ch3 : Nat
  dc_cal_ch2 : Nat
  dc_cal_ch1 : Nat
  cs_blank : Nat
  gain_cs3 : Nat
  gain_cs2 : Nat
  gain_cs1 : Nat
deriving DecidableEq, Repr

structure drv8305_ctrl0B_vreg_t where
  vref_scale : Nat
  sleep_dly : Nat
  dis_vreg_pwrgd : Nat
  vreg_uv_level : Nat
deriving DecidableEq, Repr

structure drv8305_ctrl0C_vds_t where
  vds_level : Nat
  vds_mode : Nat
deriving DecidableEq, Repr

structure drv8305_configuration_t where
  hs_gate_drive : drv8305_ctrl05_hs_gate_t
  ls_gate_drive : drv8305_ctrl06_ls_gate_t
  gate_drive : drv8305_ctrl07_gate_t
  ic_operation : drv8305_ctrl09_ic_op_t
  shunt_amplifier : drv8305_ctrl0A_shunt_t
  voltage_regulator : drv8305_ctrl0B_vreg_t
  vds_sense : drv8305_ctrl0C_vds_t
deriving DecidableEq, Repr

/-! ### Packing macros (`DRV8305_PACK_CTRLxx`) -/

def DRV8305_PACK_CTRL05 (cfg : drv8305_ctrl05_hs_gate_t) : Nat :=
  ((cfg.tdrive &&& 0x03) <<< 8) ||| ((cfg.isink &&& 0x0F) <<< 4) |||
    ((cfg.isource &&& 0x0F) <<< 0)

def DRV8305_PACK_CTRL06 (cfg : drv8305_ctrl06_ls_gate_t) : Nat :=
  ((cfg.tdrive &&& 0x03) <<< 8) ||| ((cfg.isink &&& 0x0F) <<< 4) |||
    ((cfg.isource &&& 0x0F) <<< 0)

def DRV8305_PACK_CTRL07 (cfg : drv8305_ctrl07_gate_t) : Nat :=
  ((cfg.vcph_freq &&& 0x01) <<< 10) ||| ((cfg.comm_option &&& 0x01) <<< 9) |||
    ((cfg.pwm_mode &&& 0x03) <<< 7) ||| ((cfg.dead_time &&& 0x07) <<< 4) |||
    ((cfg.tblank &&& 0x03) <<< 2) ||| ((cfg.tvds &&& 0x03) <<< 0)

def DRV8305_PACK_CTRL09 (cfg : drv8305_ctrl09_ic_op_t) : Nat :=
  ((cfg.flip_otsd &&& 0x01) <<< 10) ||| ((cfg.dis_pvdd_uvlo2 &&& 0x01) <<< 9) |||
    ((cfg.dis_gdrv_fault &&& 0x01) <<< 8) ||| ((cfg.en_sns_clamp &&& 0x01) <<< 7) |||
    ((cfg.wd_dly &&& 0x03) <<< 5) ||| ((cfg.dis_sns_ocp &&& 0x01) <<< 4) |||
    ((cfg.wd_en &&& 0x01) <<< 3) ||| ((cfg.sleep &&& 0x01) <<< 2) |||
    ((cfg.clr_flts &&& 0x01) <<< 1) ||| ((cfg.set_vcph_uv &&& 0x01) <<< 0)

def DRV8305_PACK_CTRL0A (cfg : drv8305_ctrl0A_shunt_t) : Nat :=
  ((cfg.dc_cal_ch3 &&& 0x01) <<< 10) ||| ((cfg.dc_cal_ch2 &&& 0x01) <<< 9) |||
    ((cfg.dc_cal_ch1 &&& 0x01) <<< 8) ||| ((cfg.cs_blank &&& 0x03) <<< 6) |||
    ((cfg.gain_cs3 &&& 0x03) <<< 4) ||| ((cfg.gain_cs2 &&& 0x03) <<< 2) |||
    ((cfg.gain_cs1 &&& 0x03) <<< 0)

def DRV8305_PACK_CTRL0B (cfg : drv8305_ctrl0B_vreg_t) : Nat :=
  ((cfg.vref_scale &&& 0x03) <<< 8) ||| ((cfg.sleep_dly &&& 0x03) <<< 3) |||
    ((cfg.dis_vreg_pwrgd &&& 0x01) <<< 2) ||| ((cfg.vreg_uv_level &&& 0x03) <<< 0)

def DRV8305_PACK_CTRL0C (cfg : drv8305_ctrl0C_vds_t) : Nat :=
  ((cfg.vds_level &&& 0x1F) <<< 3) ||| ((cfg.vds_mode &&& 0x07) <<< 0)

/-! ### Wire codec (`drv8305_api.c`) -/

def drv8305_spi_write_packet_create (register_type data : Nat) : Nat :=
  ((register_type &&& 0x0F) <<< 11) ||| (data &&& 0x7FF)

def drv8305_spi_read_packet_create (register_type : Nat) : Nat :=
  (1 <<< 15) ||| ((register_type &&& 0x0F) <<< 11)

def drv8305_spi_response_packet_create (data : Nat) : Nat :=
  data &&& 0x7FF

/-! ### Confirmation comparators
(`drv8305_control_registers_handlers.c`).  Each C handler takes the user
object and the echoed data, decodes the data with the mask table above and
writes the register's confirmation flag; here each handler returns the flag
value it writes (the caller stores it).  The C null-`self` guard is dropped:
a live object is always passed. -/

def drv8305_hs_gate_drive_register_handler (cfg : drv8305_configuration_t)
    (data : Nat) : Bool :=
  (((data &&& DRV8305_CTRL05_CTRL06_TDRIVE_MASK) >>> 8) == cfg.hs_gate_drive.tdrive) &&
  (((data &&& DRV8305_CTRL05_CTRL06_ISINK_MASK) >>> 4) == cfg.hs_gate_drive.isink) &&
  (((data &&& DRV8305_CTRL05_CTRL06_ISOURCE_MASK) >>> 0) == cfg.hs_gate_drive.isource)

def drv8305_ls_gate_drive_register_handler (cfg : drv8305_configuration_t)
    (data : Nat) : Bool :=
  (((data &&& DRV8305_CTRL05_CTRL06_TDRIVE_MASK) >>> 8) == cfg.ls_gate_drive.tdrive) &&
  (((data &&& DRV8305_CTRL05_CTRL06_ISINK_MASK) >>> 4) == cfg.ls_gate_drive.isink) &&
  (((data &&& DRV8305_CTRL05_CTRL06_ISOURCE_MASK) >>> 0) == cfg.ls_gate_drive.isource)

def drv8305_gate_drive_register_handler (cfg : drv8305_configuration_t)
    (data : Nat) : Bool :=
  (((data &&& DRV8305_CTRL07_VCPH_FREQ_MASK) >>> 10) == cfg.gate_drive.vcph_freq) &&
  (((data &&& DRV8305_CTRL07_COMM_OPTION_MASK) >>> 9) == cfg.gate_drive.comm_option) &&
  (((data &&& DRV8305_CTRL07_PWM_MODE_MASK) >>> 7) == cfg.gate_drive.pwm_mode) &&
  (((data &&& DRV8305_CTRL07_DEAD_TIME_MASK) >>> 4) == cfg.gate_drive.dead_time) &&
  (((data &&& DRV8305_CTRL07_TBLANK_MASK) >>> 2) == cfg.gate_drive.tblank) &&
  (((data &&& DRV8305_CTRL07_TVDS_MASK) >>> 0) == cfg.gate_drive.tvds)

/-- Register 0x09 comparator.  The C source decodes `clr_flts` as well but
its comparison line is commented out, so the decoded `clr_flts` value is
unused: it does not appear below. -/
def drv8305_ic_operation_register_handler (cfg : drv8305_configuration_t)
    (data : Nat) : Bool :=
  (((data &&& DRV8305_CTRL09_FLIP_OTSD_MASK) >>> 10) == cfg.ic_operation.flip_otsd) &&
  (((data &&& DRV8305_CTRL09_DIS_PVDD_UVLO2_MASK) >>> 9) == cfg.ic_operation.dis_pvdd_uvlo2) &&
  (((data &&& DRV8305_CTRL09_DIS_GDRV_FAULT_MASK) >>> 8) == cfg.ic_operation.dis_gdrv_fault) &&
  (((data &&& DRV8305_CTRL09_EN_SNS_CLAMP_MASK) >>> 7) == cfg.ic_operation.en_sns_clamp) &&
  (((data &&& DRV8305_CTRL09_WD_DLY_MASK) >>> 5) == cfg.ic_operation.wd_dly) &&
  (((data &&& DRV8305_CTRL09_DIS_SNS_OCP_MASK) >>> 4) == cfg.ic_operation.dis_sns_ocp) &&
  (((data &&& DRV8305_CTRL09_WD_EN_MASK) >>> 3) == cfg.ic_operation.wd_en) &&
  (((data &&& DRV8305_CTRL09_SLEEP_MASK) >>> 2) == cfg.ic_operation.sleep) &&
  (((data &&& DRV8305_CTRL09_SET_VCPH_UV_MASK) >>> 0) == cfg.ic_operation.set_vcph_uv)

def drv8305_shunt_amplifier_register_handler (cfg : drv8305_configuration_t)
    (data : Nat) : Bool :=
  (((data &&& DRV8305_CTRL0A_DC_CAL_CH3_MASK) >>> 10) == cfg.shunt_amplifier.dc_cal_ch3) &&
  (((data &&& DRV8305_CTRL0A_DC_CAL_CH2_MASK) >>> 9) == cfg.shunt_amplifier.dc_cal_ch2) &&
  (((data &&& DRV8305_CTRL0A_DC_CAL_CH1_MASK) >>> 8) == cfg.shunt_amplifier.dc_cal_ch1) &&
  (((data &&& DRV8305_CTRL0A_CS_BLANK_MASK) >>> 6) == cfg.shunt_amplifier.cs_blank) &&
  (((data &&& DRV8305_CTRL0A_GAIN_CH3_MASK) >>> 4) == cfg.shunt_amplifier.gain_cs3) &&
  (((data &&& DRV8305_CTRL0A_GAIN_CH2_MASK) >>> 2) == cfg.shunt_amplifier.gain_cs2) &&
  (((data &&& DRV8305_CTRL0A_GAIN_CH1_MASK) >>> 0) == cfg.shunt_amplifier.gain_cs1)

def drv8305_voltage_regulator_register_handler (cfg : drv8305_configuration_t)
    (data : Nat) : Bool :=
  (((data &&& DRV8305_CTRL0B_VREF_SCALE_MASK) >>> 8) == cfg.voltage_regulator.vref_scale) &&
  (((data &&& DRV8305_CTRL0B_SLEEP_DELAY_MASK) >>> 3) == cfg.voltage_regulator.sleep_dly) &&
  (((data &&& DRV8305_CTRL0B_DIS_VREG_PWRGD_MASK) >>> 2) == cfg.voltage_regulator.dis_vreg_pwrgd) &&
  (((data &&& DRV8305_CTRL0B_VREG_UV_LEVEL_MASK) >>> 0) == cfg.voltage_regulator.vreg_uv_level)

def drv8305_vds_sense_register_handler (cfg : drv8305_configuration_t)
    (data : Nat) : Bool :=
  (((data &&& DRV8305_CTRL0C_VDS_LEVEL_MASK) >>> 3) == cfg.vds_sense.vds_level) &&
  (((data &&& DRV8305_CTRL0C_VDS_MODE_MASK) >>> 0) == cfg.vds_sense.vds_mode)

/-! ### Datasheet default configuration (`drv8305_configuration.c`) -/

def default_configuration : drv8305_configuration_t where
  hs_gate_drive :=
    { tdrive := 0x3    -- DRV8305_TDRIVE_1780NS
      isink := 0x4     -- 60 mA
      isource := 0x4 } -- 50 mA
  ls_gate_drive :=
    { tdrive := 0x3
      isink := 0x4
      isource := 0x4 }
  gate_drive :=
    { vcph_freq := 0x0   -- 518 kHz
      comm_option := 0x1 -- active freewheeling
      pwm_mode := 0x0    -- 6 inputs
      dead_time := 0x1   -- 52 ns
      tblank := 0x1      -- 1.75 us
      tvds := 0x2 }      -- 3.5 us
  ic_operation :=
    { flip_otsd := 0
      dis_pvdd_uvlo2 := 0
      dis_gdrv_fault := 0
      en_sns_clamp := 0
      wd_dly := 0x1      -- 20 ms
      dis_sns_ocp := 0
      wd_en := 0
      sleep := 0
      clr_flts := 1
      set_vcph_uv := 0 }
  shunt_amplifier :=
    { dc_cal_ch3 := 0
      dc_cal_ch2 := 0
      dc_cal_ch1 := 0
      cs_blank := 0x0    -- 0 ns
      gain_cs3 := 0x0    -- 10 V/V
      gain_cs2 := 0x0
      gain_cs1 := 0x0 }
  voltage_regulator :=
    { vref_scale := 0x1  -- k = 2
      sleep_dly := 0x1   -- 10 us
      dis_vreg_pwrgd := 0
      vreg_uv_level := 0x2 } -- VREG x 0.7
  vds_sense :=
    { vds_level := 0x19  -- 1.175 V
      vds_mode := 0x0 }  -- latched shutdown

/-! ### State machine data model (`drv8305_api.h`) -/

/-- Main states.  `drv8305_api.c` switches over two additional states
`DRV8305_WAKE_UP_STATE` / `DRV8305_SLEEP_STATE` (also listed by the spec)
that the shipped `drv8305_api.h` enum omits; they are included here since
the implementation file handles them.  No modelled flow ever enters them. -/
inductive drv8305_sm_state_e where
  | DRV8305_INIT_STATE
  | DRV8305_IDLE_STATE
  | DRV8305_WAKE_UP_STATE
  | DRV8305_SLEEP_STATE
  | DRV8305_STATUS_STATE
  | DRV8305_CONTROL_STATE
  | DRV8305_DELAY_STATE
deriving DecidableEq, Repr

inductive drv8305_status_sm_state_e where
  | DRV8305_SM_STATUS_WARNING_REG
  | DRV8305_SM_STATUS_OV_VDS_REG
  | DRV8305_SM_STATUS_IC_FAULTS_REG
  | DRV8305_SM_STATUS_VGS_FAULTS_REG
  | DRV8305_SM_STATUS_CYCLE_DELAY
deriving DecidableEq, Repr

/-- Control-level states.  The C enum also declares seven `..._READ_...`
states; the control polling switch has no case for them, so in those states
a poll call does nothing.  They are carried here for faithfulness. -/
inductive drv8305_control_sm_state_e where
  | DRV8305_SM_CONTROL_HS_GATE_DRIVE_REG
  | DRV8305_SM_CONTROL_LS_GATE_DRIVE_REG
  | DRV8305_SM_CONTROL_GATE_DRIVE_REG
  | DRV8305_SM_CONTROL_IC_OPERATION_REG
  | DRV8305_SM_CONTROL_SHUNT_AMPLIFIER_REG
  | DRV8305_SM_CONTROL_VOLTAGE_REGULATOR_REG
  | DRV8305_SM_CONTROL_VDS_SENSE_REG
  | DRV8305_SM_READ_CONTROL_HS_GATE_DRIVE_REG
  | DRV8305_SM_READ_CONTROL_LS_GATE_DRIVE_REG
  | DRV8305_SM_READ_CONTROL_GATE_DRIVE_REG
  | DRV8305_SM_READ_CONTROL_IC_OPERATION_REG
  | DRV8305_SM_READ_CONTROL_SHUNT_AMPLIFIER_REG
  | DRV8305_SM_READ_CONTROL_VOLTAGE_REGULATOR_REG
  | DRV8305_SM_READ_CONTROL_VDS_SENSE_REG
  | DRV8305_SM_CONTROL_CYCLE_DELAY
deriving DecidableEq, Repr

open drv8305_sm_state_e drv8305_status_sm_state_e drv8305_control_sm_state_e

structure drv8305_register_node_t where
  data : Nat
  type : Nat
deriving DecidableEq, Repr

structure drv8305_control_register_configuration_flag_t where
  hs_gate_drive : Bool
  ls_gate_drive : Bool
  gate_drive : Bool
  ic_operation : Bool
  shunt_amplifier : Bool
  voltage_regulator : Bool
  vds_sense : Bool
deriving DecidableEq, Repr

/-- The driver object (`drv8305_user_object_t`), with the nested
`drv8305_state_machine_t` fields flattened in.  The function-pointer
callback structs are modelled outside the state: the hardware callbacks
become the SPI environment parameter and the event trace, the register
callbacks are the handler functions of
`drv8305_control_registers_handlers.c` / the no-op status handlers, exactly
as `drv8305_app.c` wires them. -/
structure drv8305_user_object_t where
  cycle_time : Nat
  delay_time : Nat
  main_state : drv8305_sm_state_e
  next_main_state : drv8305_sm_state_e
  status_state : drv8305_status_sm_state_e
  next_status_state : drv8305_status_sm_state_e
  control_state : drv8305_control_sm_state_e
  next_control_state : drv8305_control_sm_state_e
  config : drv8305_configuration_t
  register_manager : List drv8305_register_node_t
  configuration_confirmation_flags : drv8305_control_register_configuration_flag_t
deriving DecidableEq, Repr

/-- Observable hardware-callback invocations. -/
inductive drv8305_event where
  | enableIo
  | disableIo
  | wakeIo
  | sleepIo
  | spiTx (packet : Nat)
deriving DecidableEq, Repr

/-- Packets transmitted on the wire within an event trace. -/
def drv8305_spi_trace (evs : List drv8305_event) : List Nat :=
  evs.filterMap fun e =>
    match e with
    | drv8305_event.spiTx p => some p
    | _ => none

/-- The register table `drv8305_registers` of `drv8305_api.c`. -/
def drv8305_registers : List Nat :=
  [DRV8305_STATUS_01, DRV8305_STATUS_02, DRV8305_STATUS_03, DRV8305_STATUS_04,
   DRV8305_CONTROL_05, DRV8305_CONTROL_06, DRV8305_CONTROL_07, DRV8305_CONTROL_09,
   DRV8305_CONTROL_0A, DRV8305_CONTROL_0B, DRV8305_CONTROL_0C]

def drv8305_get_reg (s : drv8305_user_object_t) (i : Nat) : drv8305_register_node_t :=
  (s.register_manager.get? i).getD ⟨0, 0⟩

def drv8305_set_reg_data (s : drv8305_user_object_t) (i d : Nat) :
    drv8305_user_object_t :=
  { s with register_manager :=
      match s.register_manager.get? i with
      | some node => s.register_manager.set i { node with data := d }
      | none => s.register_manager }

/-! ### State transitions (`drv8305_api.c`, private helpers) -/

def drv8305_main_sm_go_to_next_state (s : drv8305_user_object_t)
    (next_state : drv8305_sm_state_e) (delay_time : Nat) : drv8305_user_object_t :=
  { s with cycle_time := 0
           main_state := DRV8305_DELAY_STATE
           next_main_state := next_state
           delay_time := delay_time }

def drv8305_status_sm_go_to_next_state (s : drv8305_user_object_t)
    (next_state : drv8305_status_sm_state_e) (delay_time : Nat) : drv8305_user_object_t :=
  { s with cycle_time := 0
           status_state := DRV8305_SM_STATUS_CYCLE_DELAY
           next_status_state := next_state
           delay_time := delay_time }

def drv8305_control_sm_go_to_next_state (s : drv8305_user_object_t)
    (next_state : drv8305_control_sm_state_e) (delay_time : Nat) : drv8305_user_object_t :=
  { s with cycle_time := 0
           control_state := DRV8305_SM_CONTROL_CYCLE_DELAY
           next_control_state := next_state
           delay_time := delay_time }

/-! ### SPI transactions.  The transport is the environment `env`: the value
the receive callback returns after a given packet was transmitted (the C
callbacks are a transmit followed by a receive; `drv8305_app.c` realises
both with one full-duplex exchange, so the response is a function of the
transmitted packet). -/

def drv8305_spi_write_command_process (env : Nat → Nat) (reg data : Nat) :
    Nat × drv8305_event :=
  let tx := drv8305_spi_write_packet_create reg data
  (drv8305_spi_response_packet_create (env tx), drv8305_event.spiTx tx)

def drv8305_spi_read_command_process (env : Nat → Nat) (reg : Nat) :
    Nat × drv8305_event :=
  let tx := drv8305_spi_read_packet_create reg
  (drv8305_spi_response_packet_create (env tx), drv8305_event.spiTx tx)

/-! Packed-value producers for the seven control registers (the C statics
`drv8305_control_register_xx_parser`; renamed here with `_pack_value`
suffix). -/

def drv8305_control_register_05_pack_value (s : drv8305_user_object_t) : Nat :=
  DRV8305_PACK_CTRL05 s.config.hs_gate_drive

def drv8305_control_register_06_pack_value (s : drv8305_user_object_t) : Nat :=
  DRV8305_PACK_CTRL06 s.config.ls_gate_drive

def drv8305_control_register_07_pack_value (s : drv8305_user_object_t) : Nat :=
  DRV8305_PACK_CTRL07 s.config.gate_drive

def drv8305_control_register_09_pack_value (s : drv8305_user_object_t) : Nat :=
  DRV8305_PACK_CTRL09 s.config.ic_operation

def drv8305_control_register_0A_pack_value (s : drv8305_user_object_t) : Nat :=
  DRV8305_PACK_CTRL0A s.config.shunt_amplifier

def drv8305_control_register_0B_pack_value (s : drv8305_user_object_t) : Nat :=
  DRV8305_PACK_CTRL0B s.config.voltage_regulator

def drv8305_control_register_0C_pack_value (s : drv8305_user_object_t) : Nat :=
  DRV8305_PACK_CTRL0C s.config.vds_sense

/-! ### Status polling (`drv8305_status_register_process_polling`).
Each register state: read the register, store the unpacked response into
the slot, invoke the status callback (the handlers of
`drv8305_status_registers_handlers.c`, which inspect the data but change no
driver state), then schedule the next state. -/

def drv8305_status_register_process_polling (env : Nat → Nat)
    (s : drv8305_user_object_t) : drv8305_user_object_t × List drv8305_event :=
  match s.status_state with
  | DRV8305_SM_STATUS_WARNING_REG =>
    let (rx, ev) := drv8305_spi_read_command_process env
      (drv8305_get_reg s DRV8305_STATUS_01_ARRAY_INDEX).type
    let s := drv8305_set_reg_data s DRV8305_STATUS_01_ARRAY_INDEX rx
    (drv8305_status_sm_go_to_next_state s DRV8305_SM_STATUS_OV_VDS_REG
      DRV8305_STANDARD_TASK_DELAY_TIMEOUT, [ev])
  | DRV8305_SM_STATUS_OV_VDS_REG =>
    let (rx, ev) := drv8305_spi_read_command_process env
      (drv8305_get_reg s DRV8305_STATUS_02_ARRAY_INDEX).type
    let s := drv8305_set_reg_data s DRV8305_STATUS_02_ARRAY_INDEX rx
    (drv8305_status_sm_go_to_next_state s DRV8305_SM_STATUS_IC_FAULTS_REG
      DRV8305_STANDARD_TASK_DELAY_TIMEOUT, [ev])
  | DRV8305_SM_STATUS_IC_FAULTS_REG =>
    let (rx, ev) := drv8305_spi_read_command_process env
      (drv8305_get_reg s DRV8305_STATUS_03_ARRAY_INDEX).type
    let s := drv8305_set_reg_data s DRV8305_STATUS_03_ARRAY_INDEX rx
    (drv8305_status_sm_go_to_next_state s DRV8305_SM_STATUS_VGS_FAULTS_REG
      DRV8305_STANDARD_TASK_DELAY_TIMEOUT, [ev])
  | DRV8305_SM_STATUS_VGS_FAULTS_REG =>
    let (rx, ev) := drv8305_spi_read_command_process env
      (drv8305_get_reg s DRV8305_STATUS_04_ARRAY_INDEX).type
    let s := drv8305_set_reg_data s DRV8305_STATUS_04_ARRAY_INDEX rx
    (drv8305_main_sm_go_to_next_state s DRV8305_IDLE_STATE
      DRV8305_STANDARD_TASK_DELAY_TIMEOUT, [ev])
  | DRV8305_SM_STATUS_CYCLE_DELAY =>
    if s.cycle_time ≥ s.delay_time then
      ({ s with status_state := s.next_status_state }, [])
    else (s, [])

/-! ### Control polling (`drv8305_control_register_process_polling`).
Each register state: pack the configured sub-record, issue the write
command, store the echoed data in the slot, invoke the control callback —
which `drv8305_app.c` wires to the confirmation comparator of
`drv8305_control_registers_handlers.c`, updating the register's
confirmation flag — then schedule the next state. -/

def drv8305_control_register_process_polling (env : Nat → Nat)
    (s : drv8305_user_object_t) : drv8305_user_object_t × List drv8305_event :=
  match s.control_state with
  | DRV8305_SM_CONTROL_HS_GATE_DRIVE_REG =>
    let (rx, ev) := drv8305_spi_write_command_process env
      (drv8305_get_reg s DRV8305_CONTROL_05_ARRAY_INDEX).type
      (drv8305_control_register_05_pack_value s)
    let s := drv8305_set_reg_data s DRV8305_CONTROL_05_ARRAY_INDEX rx
    let s := { s with configuration_confirmation_flags :=
      { s.configuration_confirmation_flags with
          hs_gate_drive := drv8305_hs_gate_drive_register_handler s.config rx } }
    (drv8305_control_sm_go_to_next_state s DRV8305_SM_CONTROL_LS_GATE_DRIVE_REG
      DRV8305_REGISTER_SWITCH_DELAY_MS, [ev])
  | DRV8305_SM_CONTROL_LS_GATE_DRIVE_REG =>
    let (rx, ev) := drv8305_spi_write_command_process env
      (drv8305_get_reg s DRV8305_CONTROL_06_ARRAY_INDEX).type
      (drv8305_control_register_06_pack_value s)
    let s := drv8305_set_reg_data s DRV8305_CONTROL_06_ARRAY_INDEX rx
    let s := { s with configuration_confirmation_flags :=
      { s.configuration_confirmation_flags with
          ls_gate_drive := drv8305_ls_gate_drive_register_handler s.config rx } }
    (drv8305_control_sm_go_to_next_state s DRV8305_SM_CONTROL_GATE_DRIVE_REG
      DRV8305_REGISTER_SWITCH_DELAY_MS, [ev])
  | DRV8305_SM_CONTROL_GATE_DRIVE_REG =>
    let (rx, ev) := drv8305_spi_write_command_process env
      (drv8305_get_reg s DRV8305_CONTROL_07_ARRAY_INDEX).type
      (drv8305_control_register_07_pack_value s)
    let s := drv8305_set_reg_data s DRV8305_CONTROL_07_ARRAY_INDEX rx
    let s := { s with configuration_confirmation_flags :=
      { s.configuration_confirmation_flags with
          gate_drive := drv8305_gate_drive_register_handler s.config rx } }
    (drv8305_control_sm_go_to_next_state s DRV8305_SM_CONTROL_IC_OPERATION_REG
      DRV8305_REGISTER_SWITCH_DELAY_MS, [ev])
  | DRV8305_SM_CONTROL_IC_OPERATION_REG =>
    let (rx, ev) := drv8305_spi_write_command_process env
      (drv8305_get_reg s DRV8305_CONTROL_09_ARRAY_INDEX).type
      (drv8305_control_register_09_pack_value s)
    let s := drv8305_set_reg_data s DRV8305_CONTROL_09_ARRAY_INDEX rx
    let s := { s with configuration_confirmation_flags :=
      { s.configuration_confirmation_flags with
          ic_operation := drv8305_ic_operation_register_handler s.config rx } }
    (drv8305_control_sm_go_to_next_state s DRV8305_SM_CONTROL_SHUNT_AMPLIFIER_REG
      DRV8305_REGISTER_SWITCH_DELAY_MS, [ev])
  | DRV8305_SM_CONTROL_SHUNT_AMPLIFIER_REG =>
    let (rx, ev) := drv8305_spi_write_command_process env
      (drv8305_get_reg s DRV8305_CONTROL_0A_ARRAY_INDEX).type
      (drv8305_control_register_0A_pack_value s)
    let s := drv8305_set_reg_data s DRV8305_CONTROL_0A_ARRAY_INDEX rx
    let s := { s with configuration_confirmation_flags :=
      { s.configuration_confirmation_flags with
          shunt_amplifier := drv8305_shunt_amplifier_register_handler s.config rx } }
    (drv8305_control_sm_go_to_next_state s DRV8305_SM_CONTROL_VOLTAGE_REGULATOR_REG
      DRV8305_REGISTER_SWITCH_DELAY_MS, [ev])
  | DRV8305_SM_CONTROL_VOLTAGE_REGULATOR_REG =>
    let (rx, ev) := drv8305_spi_write_command_process env
      (drv8305_get_reg s DRV8305_CONTROL_0B_ARRAY_INDEX).type
      (drv8305_control_register_0B_pack_value s)
    let s := drv8305_set_reg_data s DRV8305_CONTROL_0B_ARRAY_INDEX rx
    let s := { s with configuration_confirmation_flags :=
      { s.configuration_confirmation_flags with
          voltage_regulator := drv8305_voltage_regulator_register_handler s.config rx } }
    (drv8305_control_sm_go_to_next_state s DRV8305_SM_CONTROL_VDS_SENSE_REG
      DRV8305_REGISTER_SWITCH_DELAY_MS, [ev])
  | DRV8305_SM_CONTROL_VDS_SENSE_REG =>
    let (rx, ev) := drv8305_spi_write_command_process env
      (drv8305_get_reg s DRV8305_CONTROL_0C_ARRAY_INDEX).type
      (drv8305_control_register_0C_pack_value s)
    let s := drv8305_set_reg_data s DRV8305_CONTROL_0C_ARRAY_INDEX rx
    let s := { s with configuration_confirmation_flags :=
      { s.configuration_confirmation_flags with
          vds_sense := drv8305_vds_sense_register_handler s.config rx } }
    (drv8305_main_sm_go_to_next_state s DRV8305_IDLE_STATE
      DRV8305_REGISTER_SWITCH_DELAY_MS, [ev])
  | DRV8305_SM_CONTROL_CYCLE_DELAY =>
    if s.cycle_time ≥ s.delay_time then
      ({ s with control_state := s.next_control_state }, [])
    else (s, [])
  | _ => (s, [])

/-! ### Master scheduler (`drv8305_api_master_sm_polling`).  The C null
check on `self` is dropped: a live object is always passed. -/

def drv8305_api_master_sm_polling (env : Nat → Nat)
    (s : drv8305_user_object_t) : drv8305_user_object_t × List drv8305_event :=
  match s.main_state with
  | DRV8305_INIT_STATE =>
    (drv8305_main_sm_go_to_next_state s DRV8305_CONTROL_STATE
      DRV8305_REGISTER_SWITCH_DELAY_MS,
     [drv8305_event.enableIo, drv8305_event.wakeIo])
  | DRV8305_IDLE_STATE =>
    if s.cycle_time ≥ DRV8305_STATUS_POLLING_INTERVAL_MS then
      (drv8305_main_sm_go_to_next_state s DRV8305_STATUS_STATE
        DRV8305_REGISTER_SWITCH_DELAY_MS, [])
    else (s, [])
  | DRV8305_WAKE_UP_STATE =>
    (drv8305_main_sm_go_to_next_state s DRV8305_IDLE_STATE
      DRV8305_REGISTER_SWITCH_DELAY_MS, [drv8305_event.wakeIo])
  | DRV8305_SLEEP_STATE =>
    (drv8305_main_sm_go_to_next_state s DRV8305_IDLE_STATE
      DRV8305_REGISTER_SWITCH_DELAY_MS, [drv8305_event.sleepIo])
  | DRV8305_STATUS_STATE => drv8305_status_register_process_polling env s
  | DRV8305_CONTROL_STATE => drv8305_control_register_process_polling env s
  | DRV8305_DELAY_STATE =>
    if s.cycle_time ≥ s.delay_time then
      ({ s with main_state := s.next_main_state }, [])
    else (s, [])

def drv8305_poll_state (env : Nat → Nat) (s : drv8305_user_object_t) :
    drv8305_user_object_t :=
  (drv8305_api_master_sm_polling env s).1

/-! ### Remaining public API (`drv8305_api.c`) -/

/-- `drv8305_api_timer`: `self->state.cycle_time++` on a `uint32_t`. -/
def drv8305_api_timer (s : drv8305_user_object_t) : drv8305_user_object_t :=
  { s with cycle_time := (s.cycle_time + 1) % 4294967296 }

def drv8305_api_confirm_configuration (s : drv8305_user_object_t) :
    drv8305_user_object_t :=
  drv8305_main_sm_go_to_next_state s DRV8305_CONTROL_STATE
    DRV8305_REGISTER_SWITCH_DELAY_MS

/-- `drv8305_set_configuration` overwrites the process-wide global
`default_configuration` (the configuration store); it touches no driver
object and invokes no callback. It returns the new store value. -/
def drv8305_set_configuration (cfg : drv8305_configuration_t) :
    drv8305_configuration_t :=
  cfg

/-- Presence (non-nullness) of the six hardware callbacks that
`drv8305_api_initialize` validates. -/
structure drv8305_hw_callbacks_present_t where
  disable_cb : Bool
  enable_cb : Bool
  sleep_cb : Bool
  wake_up_cb : Bool
  spi_receive_cb : Bool
  spi_transmit_cb : Bool
deriving DecidableEq, Repr

/-- `drv8305_api_initialize` (renamed: Lean).  `self_nonnull` models the
`self == NULL` check, `cbs` the six callback null checks; `store` is the
configuration global read through `drv8305_get_configuration()`.  On the
guard path the function returns with the object untouched and no callback
invoked; otherwise it zeroes the counters, puts the three state variables
at their first states, calls wake-up then disable, copies the store into
the object and fills the 11 register slots with their addresses and zero
data. -/
def drv8305_api_init (self_nonnull : Bool) (cbs : drv8305_hw_callbacks_present_t)
    (store : drv8305_configuration_t) (s : drv8305_user_object_t) :
    drv8305_user_object_t × List drv8305_event :=
  if self_nonnull = false ∨ cbs.disable_cb = false ∨ cbs.enable_cb = false ∨
     cbs.sleep_cb = false ∨ cbs.wake_up_cb = false ∨
     cbs.spi_receive_cb = false ∨ cbs.spi_transmit_cb = false then
    (s, [])
  else
    ({ s with cycle_time := 0
              delay_time := 0
              main_state := DRV8305_INIT_STATE
              status_state := DRV8305_SM_STATUS_WARNING_REG
              control_state := DRV8305_SM_CONTROL_HS_GATE_DRIVE_REG
              config := store
              register_manager := drv8305_registers.map fun t => ⟨0, t⟩ },
     [drv8305_event.wakeIo, drv8305_event.disableIo])

/-! ### Runs.  The application drives the core through an arbitrary
interleaving of timer ticks (1 ms ISR), polls, and external API calls; a
run is a list of such operations.  `drv8305_add_ticks` is the effect of
`k` consecutive `drv8305_api_timer` calls in closed form
(`drv8305_add_ticks_timer` below proves the correspondence). -/

def drv8305_add_ticks (k : Nat) (s : drv8305_user_object_t) :
    drv8305_user_object_t :=
  { s with cycle_time := (s.cycle_time + k) % 4294967296 }

inductive drv8305_op where
  | tick (k : Nat)
  | poll
  | confirm
deriving DecidableEq, Repr

def drv8305_run_ops (env : Nat → Nat) :
    List drv8305_op → drv8305_user_object_t × List drv8305_event →
    drv8305_user_object_t × List drv8305_event
  | [], p => p
  | op :: ops, (s, tr) =>
    match op with
    | drv8305_op.tick k => drv8305_run_ops env ops (drv8305_add_ticks k s, tr)
    | drv8305_op.poll =>
      let r := drv8305_api_master_sm_polling env s
      drv8305_run_ops env ops (r.1, tr ++ r.2)
    | drv8305_op.confirm =>
      drv8305_run_ops env ops (drv8305_api_confirm_configuration s, tr)

/-- A zero-initialised driver object: the application's `user_drv8305_obj`
has static storage, so every field the initialisation does not write starts
at zero/false. -/
def drv8305_zero_object : drv8305_user_object_t where
  cycle_time := 0
  delay_time := 0
  main_state := DRV8305_INIT_STATE
  next_main_state := DRV8305_INIT_STATE
  status_state := DRV8305_SM_STATUS_WARNING_REG
  next_status_state := DRV8305_SM_STATUS_WARNING_REG
  control_state := DRV8305_SM_CONTROL_HS_GATE_DRIVE_REG
  next_control_state := DRV8305_SM_CONTROL_HS_GATE_DRIVE_REG
  config :=
    { hs_gate_drive := ⟨0, 0, 0⟩
      ls_gate_drive := ⟨0, 0, 0⟩
      gate_drive := ⟨0, 0, 0, 0, 0, 0⟩
      ic_operation := ⟨0, 0, 0, 0, 0, 0, 0, 0, 0, 0⟩
      shunt_amplifier := ⟨0, 0, 0, 0, 0, 0, 0⟩
      voltage_regulator := ⟨0, 0, 0, 0⟩
      vds_sense := ⟨0, 0⟩ }
  register_manager := List.replicate 11 ⟨0, 0⟩
  configuration_confirmation_flags := ⟨false, false, false, false, false, false, false⟩

/-- All six hardware callbacks wired, as in `drv8305_app.c`. -/
def drv8305_all_callbacks : drv8305_hw_callbacks_present_t :=
  ⟨true, true, true, true, true, true⟩

/-- The driver object right after `drv8305_api_initialize` succeeds on the
datasheet default store. -/
def drv8305_init_object : drv8305_user_object_t :=
  (drv8305_api_init true drv8305_all_callbacks default_configuration
    drv8305_zero_object).1

/-- A perfectly echoing SPI device: the raw response equals the transmitted
packet, so the decoded response is exactly the 11-bit payload that was
written. -/
def drv8305_echo_env : Nat → Nat := fun tx => tx

/-! ### Concrete scenarios.  Delay states release when `cycle_time` reaches
`delay_time`, so each scenario interleaves bulk ticks with the polls that
release a delay and the polls that act. -/

/-- Boot: the INIT poll, the settle delay, then the seven control-register
writes each separated by the 50-cycle register-switch delay, and the final
delay back into IDLE. -/
def drv8305_boot_ops : List drv8305_op :=
  [drv8305_op.poll,
   drv8305_op.tick 50, drv8305_op.poll,
   drv8305_op.poll,
   drv8305_op.tick 50, drv8305_op.poll, drv8305_op.poll,
   drv8305_op.tick 50, drv8305_op.poll, drv8305_op.poll,
   drv8305_op.tick 50, drv8305_op.poll, drv8305_op.poll,
   drv8305_op.tick 50, drv8305_op.poll, drv8305_op.poll,
   drv8305_op.tick 50, drv8305_op.poll, drv8305_op.poll,
   drv8305_op.tick 50, drv8305_op.poll, drv8305_op.poll,
   drv8305_op.tick 50, drv8305_op.poll]

def drv8305_boot_run : drv8305_user_object_t × List drv8305_event :=
  drv8305_run_ops drv8305_echo_env drv8305_boot_ops (drv8305_init_object, [])

/-- The driver object after the boot control cycle, idle. -/
def drv8305_idle_object : drv8305_user_object_t := drv8305_boot_run.1

/-- One full status activation from IDLE: wait out the polling interval,
enter STATUS, read the four status registers separated by the 500-cycle
standard task delay, then the delay back into IDLE. -/
def drv8305_status_pass_ops : List drv8305_op :=
  [drv8305_op.tick 200, drv8305_op.poll,
   drv8305_op.tick 50, drv8305_op.poll,
   drv8305_op.poll,
   drv8305_op.tick 500, drv8305_op.poll, drv8305_op.poll,
   drv8305_op.tick 500, drv8305_op.poll, drv8305_op.poll,
   drv8305_op.tick 500, drv8305_op.poll, drv8305_op.poll,
   drv8305_op.tick 500, drv8305_op.poll]

def drv8305_status_first_window : drv8305_user_object_t × List drv8305_event :=
  drv8305_run_ops drv8305_echo_env drv8305_status_pass_ops (drv8305_idle_object, [])

/-- The second status activation: back in IDLE with the counter already past
the polling interval, the scheduler re-enters STATUS. -/
def drv8305_second_status_ops : List drv8305_op :=
  [drv8305_op.poll,
   drv8305_op.tick 50, drv8305_op.poll,
   drv8305_op.poll,
   drv8305_op.tick 500, drv8305_op.poll]

def drv8305_status_second_window : drv8305_user_object_t × List drv8305_event :=
  drv8305_run_ops drv8305_echo_env drv8305_second_status_ops
    (drv8305_status_first_window.1, [])

/-- An externally requested configuration cycle: confirm, the settle delay
into CONTROL, the poll(s) of the control sequencer, and the delay back to
IDLE. -/
def drv8305_confirm_ops : List drv8305_op :=
  [drv8305_op.confirm,
   drv8305_op.tick 50, drv8305_op.poll,
   drv8305_op.poll,
   drv8305_op.tick 50, drv8305_op.poll]

def drv8305_confirm_window : drv8305_user_object_t × List drv8305_event :=
  drv8305_run_ops drv8305_echo_env drv8305_confirm_ops (drv8305_idle_object, [])

/-- A fresh record differing from the boot-time store in the VDS response
mode (report-only instead of latched shutdown). -/
def drv8305_new_record_r : drv8305_configuration_t :=
  { default_configuration with vds_sense := { vds_level := 0x19, vds_mode := 0x1 } }

/-- Driver stopped mid status pass: the warning register has been read and
the sequencer is in its delay sub-state, three registers still pending. -/
def drv8305_mid_status_object : drv8305_user_object_t :=
  (drv8305_run_ops drv8305_echo_env
    [drv8305_op.tick 200, drv8305_op.poll,
     drv8305_op.tick 50, drv8305_op.poll,
     drv8305_op.poll]
    (drv8305_idle_object, [])).1

/-- A confirm call arriving in the middle of that status pass, followed by
polls and ticks until the scheduler is back in IDLE. -/
def drv8305_c8_window : drv8305_user_object_t × List drv8305_event :=
  drv8305_run_ops drv8305_echo_env drv8305_confirm_ops (drv8305_mid_status_object, [])

/-- The boot object about to release its first DELAY: counter at the target. -/
def drv8305_pre_release_object : drv8305_user_object_t :=
  (drv8305_run_ops drv8305_echo_env [drv8305_op.poll, drv8305_op.tick 50]
    (drv8305_init_object, [])).1

/-- Configuration exercising the register-0x0A comparator: current-sense
blanking 500 ns (`cs_blank = 1`), everything else at zero. -/
def drv8305_c4_cfg : drv8305_configuration_t :=
  { default_configuration with
      shunt_amplifier :=
        { dc_cal_ch3 := 0, dc_cal_ch2 := 0, dc_cal_ch1 := 0,
          cs_blank := 1, gain_cs3 := 0, gain_cs2 := 0, gain_cs1 := 0 } }

/-! ## Helper lemmas -/

/-- Bulk ticking is iterated `drv8305_api_timer` (for in-range counters,
which every reachable state has: the counter is a `uint32_t`). -/
theorem drv8305_add_ticks_timer (k : Nat) (s : drv8305_user_object_t)
    (h : s.cycle_time < 4294967296) :
    drv8305_add_ticks k s = drv8305_api_timer^[k] s := by
  induction k generalizing s with
  | zero =>
    simp [drv8305_add_ticks, Nat.mod_eq_of_lt h]
  | succ k ih =>
    rw [Function.iterate_succ_apply,
      ← ih (drv8305_api_timer s) (Nat.mod_lt _ (by norm_num))]
    simp only [drv8305_add_ticks, drv8305_api_timer, Nat.mod_add_mod]
    have harith : s.cycle_time + (k + 1) = s.cycle_time + 1 + k := by omega
    rw [harith]

/-- Masking with a mask whose bit 1 is clear ignores a flip of bit 1. -/
theorem drv8305_and_xor_bit1 (d m : Nat) (h : m &&& 2 = 0) :
    (d ^^^ 2) &&& m = d &&& m := by
  apply Nat.eq_of_testBit_eq
  intro i
  simp only [Nat.testBit_and, Nat.testBit_xor]
  rcases eq_or_ne i 1 with rfl | hi
  · have h2 : (m &&& 2).testBit 1 = false := by
      rw [h]
      simp
    rw [Nat.testBit_and] at h2
    have h3 : Nat.testBit 2 1 = true := rfl
    rw [h3, Bool.and_true] at h2
    rw [h2]
    simp
  · have h2 : Nat.testBit 2 i = false := by
      have e : (2 : Nat) = 2 ^ 1 := rfl
      rw [e]
      exact Nat.testBit_two_pow_of_ne (Ne.symm hi)
    rw [h2]
    simp

/-- Masking with `0x7FF` is reduction modulo `2^11`. -/
theorem drv8305_low_bits (x : Nat) : x &&& 0x7FF = x % 2048 := by
  have h : (0x7FF : Nat) = 2 ^ 11 - 1 := by norm_num
  rw [h, Nat.and_pow_two_sub_one_eq_mod]

/-- A value shifted past the data field has no low bits. -/
theorem drv8305_shift11_low_bits (x : Nat) : (x <<< 11) &&& 0x7FF = 0 := by
  rw [drv8305_low_bits, Nat.shiftLeft_eq]
  have h : (2 : Nat) ^ 11 = 2048 := by norm_num
  rw [h, Nat.mul_mod_left]

/-- Write packets stay below `2^15`. -/
theorem drv8305_write_packet_lt (a d : Nat) :
    drv8305_spi_write_packet_create a d < 2 ^ 15 := by
  unfold drv8305_spi_write_packet_create
  apply Nat.or_lt_two_pow
  · have h1 : a &&& 0x0F ≤ 15 := Nat.and_le_right
    calc (a &&& 0x0F) <<< 11 = (a &&& 0x0F) * 2 ^ 11 := Nat.shiftLeft_eq ..
    _ ≤ 15 * 2 ^ 11 := Nat.mul_le_mul_right _ h1
    _ < 2 ^ 15 := by norm_num
  · have h2 : d &&& 0x7FF ≤ 0x7FF := Nat.and_le_right
    omega

/-! ## Claim theorems -/

/-- C6: the wire codec computes exactly the specified formulas —
`pack_write(addr, data) = ((addr & 0xF) << 11) | (data & 0x7FF)` with top
bit 0, `pack_read(addr) = (1 << 15) | ((addr & 0xF) << 11)`,
`unpack_response(raw) = raw & 0x7FF`; consequently for all 4-bit addresses
and 11-bit data the response of a write round-trips to the data, and
`pack_write(0x05, 0x344) = 0x2B44`, `pack_read(0x01) = 0x8800`,
`unpack_response(0xFFFF) = 0x7FF`. -/
theorem drv8305_c6_wire_codec :
    (∀ a d : Nat, drv8305_spi_write_packet_create a d =
        ((a &&& 0xF) <<< 11) ||| (d &&& 0x7FF)) ∧
    (∀ a d : Nat, (drv8305_spi_write_packet_create a d).testBit 15 = false) ∧
    (∀ a : Nat, drv8305_spi_read_packet_create a =
        (1 <<< 15) ||| ((a &&& 0xF) <<< 11)) ∧
    (∀ raw : Nat, drv8305_spi_response_packet_create raw = raw &&& 0x7FF) ∧
    (∀ a d : Nat, a < 16 → d < 2048 →
        drv8305_spi_response_packet_create (drv8305_spi_write_packet_create a d) = d) ∧
    drv8305_spi_write_packet_create 0x05 0x344 = 0x2B44 ∧
    drv8305_spi_read_packet_create 0x01 = 0x8800 ∧
    drv8305_spi_response_packet_create 0xFFFF = 0x7FF := by
  refine ⟨fun a d => rfl, fun a d => ?_, fun a => rfl, fun raw => rfl,
    fun a d ha hd => ?_, by decide, by decide, by decide⟩
  · exact Nat.testBit_lt_two_pow (drv8305_write_packet_lt a d)
  · show drv8305_spi_write_packet_create a d &&& 0x7FF = d
    unfold drv8305_spi_write_packet_create
    rw [Nat.and_distrib_right, drv8305_shift11_low_bits, Nat.zero_or,
      drv8305_low_bits, drv8305_low_bits]
    omega

/-- C6 witness: the round-trip law applied at address `0x05`, data `0x344`. -/
theorem drv8305_c6_wire_codec_witness :
    (0x05 : Nat) < 16 ∧ (0x344 : Nat) < 2048 ∧
    drv8305_spi_response_packet_create
      (drv8305_spi_write_packet_create 0x05 0x344) = 0x344 :=
  ⟨by decide, by decide,
   drv8305_c6_wire_codec.2.2.2.2.1 0x05 0x344 (by decide) (by decide)⟩

/-- C5: the self-clearing `clr_flts` bit (bit 1) of the IC-operation
register is excluded from the write-confirmation comparison: for every
configuration record and every echoed value, flipping bit 1 of the echo
leaves the computed `ic_operation` confirmation flag unchanged, so any two
echoes differing only in `clr_flts` produce the same flag. -/
theorem drv8305_c5_clr_flts_excluded (cfg : drv8305_configuration_t) (data : Nat) :
    drv8305_ic_operation_register_handler cfg data =
      drv8305_ic_operation_register_handler cfg (data ^^^ 2) := by
  unfold drv8305_ic_operation_register_handler
  rw [drv8305_and_xor_bit1 data DRV8305_CTRL09_FLIP_OTSD_MASK (by decide),
    drv8305_and_xor_bit1 data DRV8305_CTRL09_DIS_PVDD_UVLO2_MASK (by decide),
    drv8305_and_xor_bit1 data DRV8305_CTRL09_DIS_GDRV_FAULT_MASK (by decide),
    drv8305_and_xor_bit1 data DRV8305_CTRL09_EN_SNS_CLAMP_MASK (by decide),
    drv8305_and_xor_bit1 data DRV8305_CTRL09_WD_DLY_MASK (by decide),
    drv8305_and_xor_bit1 data DRV8305_CTRL09_DIS_SNS_OCP_MASK (by decide),
    drv8305_and_xor_bit1 data DRV8305_CTRL09_WD_EN_MASK (by decide),
    drv8305_and_xor_bit1 data DRV8305_CTRL09_SLEEP_MASK (by decide),
    drv8305_and_xor_bit1 data DRV8305_CTRL09_SET_VCPH_UV_MASK (by decide)]

/-- C4 (divergence witness): for register 0x0A the comparator does not
decode with the encoding layout.  With `cs_blank = 1` and all other fields
zero, the packed value is `0x40`; decoding that echo with the layout used
for encoding (2-bit gains at 5:4, 3:2, 1:0; `cs_blank` at 7:6) matches
every configured field, yet the handler — whose gain masks are three bits
wide — reports a mismatch and computes a `false` flag on this perfect
echo. -/
theorem drv8305_c4_shunt_comparator_rejects_exact_echo :
    DRV8305_PACK_CTRL0A drv8305_c4_cfg.shunt_amplifier = 0x40 ∧
    ((0x40 >>> 10) &&& 0x01 = drv8305_c4_cfg.shunt_amplifier.dc_cal_ch3 ∧
     (0x40 >>> 9) &&& 0x01 = drv8305_c4_cfg.shunt_amplifier.dc_cal_ch2 ∧
     (0x40 >>> 8) &&& 0x01 = drv8305_c4_cfg.shunt_amplifier.dc_cal_ch1 ∧
     (0x40 >>> 6) &&& 0x03 = drv8305_c4_cfg.shunt_amplifier.cs_blank ∧
     (0x40 >>> 4) &&& 0x03 = drv8305_c4_cfg.shunt_amplifier.gain_cs3 ∧
     (0x40 >>> 2) &&& 0x03 = drv8305_c4_cfg.shunt_amplifier.gain_cs2 ∧
     (0x40 >>> 0) &&& 0x03 = drv8305_c4_cfg.shunt_amplifier.gain_cs1) ∧
    ((0x40 &&& DRV8305_CTRL0A_GAIN_CH3_MASK) >>> 4 = 4) ∧
    drv8305_shunt_amplifier_register_handler drv8305_c4_cfg 0x40 = false := by
  decide

/-- C10: every `drv8305_api_timer` call increments the shared cycle counter
by exactly one, wrapping modulo `2^32`, and leaves every other part of the
driver object unchanged: the three current and pending state variables, the
delay target, the configuration record, the register slots and the
confirmation flags. -/
theorem drv8305_c10_timer_frame (s : drv8305_user_object_t) :
    drv8305_api_timer s = { s with cycle_time := (s.cycle_time + 1) % 4294967296 } ∧
    (drv8305_api_timer s).cycle_time = (s.cycle_time + 1) % 4294967296 ∧
    (drv8305_api_timer s).delay_time = s.delay_time ∧
    (drv8305_api_timer s).main_state = s.main_state ∧
    (drv8305_api_timer s).next_main_state = s.next_main_state ∧
    (drv8305_api_timer s).status_state = s.status_state ∧
    (drv8305_api_timer s).next_status_state = s.next_status_state ∧
    (drv8305_api_timer s).control_state = s.control_state ∧
    (drv8305_api_timer s).next_control_state = s.next_control_state ∧
    (drv8305_api_timer s).config = s.config ∧
    (drv8305_api_timer s).register_manager = s.register_manager ∧
    (drv8305_api_timer s).configuration_confirmation_flags =
      s.configuration_confirmation_flags :=
  ⟨rfl, rfl, rfl, rfl, rfl, rfl, rfl, rfl, rfl, rfl, rfl, rfl⟩

/-- C9: if the driver object is null or any of the six required hardware
callbacks is null, initialisation returns with the object untouched and no
callback invoked; otherwise it zeroes the counters, puts the three state
variables at their first states, invokes wake-up then disable, copies the
configuration store in, and fills the 11 register slots with their
addresses and zero data. -/
theorem drv8305_c9_init_guard (sn : Bool) (cbs : drv8305_hw_callbacks_present_t)
    (store : drv8305_configuration_t) (s : drv8305_user_object_t) :
    ((sn = false ∨ cbs.disable_cb = false ∨ cbs.enable_cb = false ∨
      cbs.sleep_cb = false ∨ cbs.wake_up_cb = false ∨
      cbs.spi_receive_cb = false ∨ cbs.spi_transmit_cb = false) →
      drv8305_api_init sn cbs store s = (s, [])) ∧
    (sn = true → cbs = drv8305_all_callbacks →
      drv8305_api_init sn cbs store s =
        ({ s with cycle_time := 0
                  delay_time := 0
                  main_state := DRV8305_INIT_STATE
                  status_state := DRV8305_SM_STATUS_WARNING_REG
                  control_state := DRV8305_SM_CONTROL_HS_GATE_DRIVE_REG
                  config := store
                  register_manager :=
                    [⟨0, 0x01⟩, ⟨0, 0x02⟩, ⟨0, 0x03⟩, ⟨0, 0x04⟩, ⟨0, 0x05⟩,
                     ⟨0, 0x06⟩, ⟨0, 0x07⟩, ⟨0, 0x09⟩, ⟨0, 0x0A⟩, ⟨0, 0x0B⟩,
                     ⟨0, 0x0C⟩] },
         [drv8305_event.wakeIo, drv8305_event.disableIo])) := by
  constructor
  · intro h
    unfold drv8305_api_init
    rw [if_pos h]
  · intro h1 h2
    subst h1
    subst h2
    rfl

/-- C9 witness: a null enable callback aborts silently; with all callbacks
wired, the zero object is fully initialised from the default store. -/
theorem drv8305_c9_init_guard_witness :
    drv8305_api_init true
      { drv8305_all_callbacks with enable_cb := false }
      default_configuration drv8305_zero_object = (drv8305_zero_object, []) ∧
    drv8305_api_init true drv8305_all_callbacks default_configuration
      drv8305_zero_object =
      ({ drv8305_zero_object with
           cycle_time := 0
           delay_time := 0
           main_state := DRV8305_INIT_STATE
           status_state := DRV8305_SM_STATUS_WARNING_REG
           control_state := DRV8305_SM_CONTROL_HS_GATE_DRIVE_REG
           config := default_configuration
           register_manager :=
             [⟨0, 0x01⟩, ⟨0, 0x02⟩, ⟨0, 0x03⟩, ⟨0, 0x04⟩, ⟨0, 0x05⟩,
              ⟨0, 0x06⟩, ⟨0, 0x07⟩, ⟨0, 0x09⟩, ⟨0, 0x0A⟩, ⟨0, 0x0B⟩,
              ⟨0, 0x0C⟩] },
       [drv8305_event.wakeIo, drv8305_event.disableIo]) :=
  ⟨(drv8305_c9_init_guard true
      { drv8305_all_callbacks with enable_cb := false }
      default_configuration drv8305_zero_object).1
      (Or.inr (Or.inr (Or.inl rfl))),
   (drv8305_c9_init_guard true drv8305_all_callbacks default_configuration
      drv8305_zero_object).2 rfl rfl⟩

/-- C7 counterexample: a reachable transition that does not reset the
shared counter.  Booting the driver and ticking 50 cycles leaves the
scheduler in DELAY with the counter at its target; the next poll releases
the DELAY into CONTROL — a main-level state transition — with the shared
counter left at 50, not reset to zero. -/
theorem drv8305_c7_delay_release_keeps_counter :
    drv8305_pre_release_object.main_state = DRV8305_DELAY_STATE ∧
    drv8305_pre_release_object.cycle_time = 50 ∧
    (drv8305_poll_state drv8305_echo_env drv8305_pre_release_object).main_state =
      DRV8305_CONTROL_STATE ∧
    (drv8305_poll_state drv8305_echo_env drv8305_pre_release_object).cycle_time = 50 := by
  decide

/-- C7 (amended): the scheduled transitions — every transition performed
through one of the three go-to-next-state helpers, i.e. every transition
that enters the DELAY state or a delay sub-state — reset the single shared
elapsed-cycle counter to zero; the transitions by which a DELAY (or delay
sub-state) releases into its pending next state once the counter reaches
the target do NOT reset the counter: they change only the released state
variable and leave the counter at its reached value. -/
theorem drv8305_c7_scheduled_transitions_reset_counter :
    (∀ (s : drv8305_user_object_t) ns d,
      (drv8305_main_sm_go_to_next_state s ns d).cycle_time = 0 ∧
      (drv8305_main_sm_go_to_next_state s ns d).main_state = DRV8305_DELAY_STATE) ∧
    (∀ (s : drv8305_user_object_t) ns d,
      (drv8305_status_sm_go_to_next_state s ns d).cycle_time = 0 ∧
      (drv8305_status_sm_go_to_next_state s ns d).status_state =
        DRV8305_SM_STATUS_CYCLE_DELAY) ∧
    (∀ (s : drv8305_user_object_t) ns d,
      (drv8305_control_sm_go_to_next_state s ns d).cycle_time = 0 ∧
      (drv8305_control_sm_go_to_next_state s ns d).control_state =
        DRV8305_SM_CONTROL_CYCLE_DELAY) ∧
    (∀ (env : Nat → Nat) (s : drv8305_user_object_t),
      s.main_state = DRV8305_DELAY_STATE → s.delay_time ≤ s.cycle_time →
      drv8305_poll_state env s = { s with main_state := s.next_main_state }) ∧
    (∀ (env : Nat → Nat) (s : drv8305_user_object_t),
      s.main_state = DRV8305_STATUS_STATE →
      s.status_state = DRV8305_SM_STATUS_CYCLE_DELAY → s.delay_time ≤ s.cycle_time →
      drv8305_poll_state env s = { s with status_state := s.next_status_state }) ∧
    (∀ (env : Nat → Nat) (s : drv8305_user_object_t),
      s.main_state = DRV8305_CONTROL_STATE →
      s.control_state = DRV8305_SM_CONTROL_CYCLE_DELAY → s.delay_time ≤ s.cycle_time →
      drv8305_poll_state env s = { s with control_state := s.next_control_state }) := by
  refine ⟨fun s ns d => ⟨rfl, rfl⟩, fun s ns d => ⟨rfl, rfl⟩,
    fun s ns d => ⟨rfl, rfl⟩, fun env s h1 h2 => ?_, fun env s h1 h2 h3 => ?_,
    fun env s h1 h2 h3 => ?_⟩
  · simp [drv8305_poll_state, drv8305_api_master_sm_polling, h1, h2]
  · simp [drv8305_poll_state, drv8305_api_master_sm_polling,
      drv8305_status_register_process_polling, h1, h2, h3]
  · simp [drv8305_poll_state, drv8305_api_master_sm_polling,
      drv8305_control_register_process_polling, h1, h2, h3]

/-- C7 amended witness: the main-level DELAY release applied at the
reachable pre-release object. -/
theorem drv8305_c7_scheduled_transitions_reset_counter_witness :
    drv8305_pre_release_object.main_state = DRV8305_DELAY_STATE ∧
    drv8305_pre_release_object.delay_time ≤ drv8305_pre_release_object.cycle_time ∧
    drv8305_poll_state drv8305_echo_env drv8305_pre_release_object =
      { drv8305_pre_release_object with
          main_state := drv8305_pre_release_object.next_main_state } :=
  ⟨by decide, by decide,
   drv8305_c7_scheduled_transitions_reset_counter.2.2.2.1 drv8305_echo_env
     drv8305_pre_release_object (by decide) (by decide)⟩

/-- C8 counterexample: a confirm-configuration call mid status pass aborts
the pass.  From a reachable state inside STATUS (warning register read,
three registers pending, delay sub-state armed for OV_VDS), a confirm call
followed by polls and ticks brings the Master Scheduler back to IDLE while
the only SPI transaction in between was a control write of register 0x0C —
the OV_VDS, IC_FAULTS and VGS_FAULTS reads never happened, so the active
sequencer's pass did not run to completion before IDLE was reached. -/
theorem drv8305_c8_confirm_aborts_status_pass :
    drv8305_mid_status_object.main_state = DRV8305_STATUS_STATE ∧
    drv8305_mid_status_object.status_state = DRV8305_SM_STATUS_CYCLE_DELAY ∧
    drv8305_mid_status_object.next_status_state = DRV8305_SM_STATUS_OV_VDS_REG ∧
    drv8305_c8_window.1.main_state = DRV8305_IDLE_STATE ∧
    drv8305_spi_trace drv8305_c8_window.2 =
      [drv8305_spi_write_packet_create DRV8305_CONTROL_0C
        (DRV8305_PACK_CTRL0C default_configuration.vds_sense)] ∧
    drv8305_c8_window.1.next_status_state = DRV8305_SM_STATUS_OV_VDS_REG := by
  decide

/-- C8 (amended): poll and tick calls alone never interrupt an active
pass — a poll in STATUS keeps the scheduler in STATUS except exactly when
the final VGS_FAULTS step completes and schedules IDLE, a poll in CONTROL
keeps it in CONTROL except exactly when the final VDS_SENSE step completes
and schedules IDLE, and a tick changes no state variable.  But an external
confirm-configuration call re-schedules the Master Scheduler to
DELAY-then-CONTROL from any state whatsoever, so a confirm arriving mid
pass abandons the pass: the interruption points include confirm calls, not
only the moments before a state machine starts. -/
theorem drv8305_c8_poll_tick_no_interruption :
    (∀ (env : Nat → Nat) (s : drv8305_user_object_t),
      s.main_state = DRV8305_STATUS_STATE →
      (if s.status_state = DRV8305_SM_STATUS_VGS_FAULTS_REG then
        (drv8305_poll_state env s).main_state = DRV8305_DELAY_STATE ∧
        (drv8305_poll_state env s).next_main_state = DRV8305_IDLE_STATE
       else (drv8305_poll_state env s).main_state = DRV8305_STATUS_STATE)) ∧
    (∀ (env : Nat → Nat) (s : drv8305_user_object_t),
      s.main_state = DRV8305_CONTROL_STATE →
      (if s.control_state = DRV8305_SM_CONTROL_VDS_SENSE_REG then
        (drv8305_poll_state env s).main_state = DRV8305_DELAY_STATE ∧
        (drv8305_poll_state env s).next_main_state = DRV8305_IDLE_STATE
       else (drv8305_poll_state env s).main_state = DRV8305_CONTROL_STATE)) ∧
    (∀ s : drv8305_user_object_t,
      (drv8305_api_timer s).main_state = s.main_state ∧
      (drv8305_api_timer s).status_state = s.status_state ∧
      (drv8305_api_timer s).control_state = s.control_state) ∧
    (∀ s : drv8305_user_object_t,
      (drv8305_api_confirm_configuration s).main_state = DRV8305_DELAY_STATE ∧
      (drv8305_api_confirm_configuration s).next_main_state =
        DRV8305_CONTROL_STATE) := by
  refine ⟨fun env s h => ?_, fun env s h => ?_,
    fun s => ⟨rfl, rfl, rfl⟩, fun s => ⟨rfl, rfl⟩⟩
  · rcases hs : s.status_state <;>
      simp [drv8305_poll_state, drv8305_api_master_sm_polling,
        drv8305_status_register_process_polling, h, hs, drv8305_set_reg_data,
        drv8305_status_sm_go_to_next_state, drv8305_main_sm_go_to_next_state]
    split <;> simp [h]
  · rcases hc : s.control_state <;>
      simp [drv8305_poll_state, drv8305_api_master_sm_polling,
        drv8305_control_register_process_polling, h, hc, drv8305_set_reg_data,
        drv8305_control_sm_go_to_next_state, drv8305_main_sm_go_to_next_state]
    split <;> simp [h]

/-- C8 amended witness: a poll at the reachable mid-pass object keeps the
scheduler in STATUS (the pass continues). -/
theorem drv8305_c8_poll_tick_no_interruption_witness :
    drv8305_mid_status_object.main_state = DRV8305_STATUS_STATE ∧
    (if drv8305_mid_status_object.status_state = DRV8305_SM_STATUS_VGS_FAULTS_REG then
      (drv8305_poll_state drv8305_echo_env drv8305_mid_status_object).main_state =
        DRV8305_DELAY_STATE ∧
      (drv8305_poll_state drv8305_echo_env drv8305_mid_status_object).next_main_state =
        DRV8305_IDLE_STATE
     else (drv8305_poll_state drv8305_echo_env drv8305_mid_status_object).main_state =
        DRV8305_STATUS_STATE) :=
  ⟨by decide,
   drv8305_c8_poll_tick_no_interruption.1 drv8305_echo_env
     drv8305_mid_status_object (by decide)⟩

/-- C1 (divergence witness): the confirm cycle programs the driver's
initialisation-time configuration copy, not the freshly set record.
`drv8305_set_configuration` replaces only the global store; the driver
object keeps the copy taken at initialisation and `confirm` never re-reads
the store.  Concretely, with the boot-time store being the datasheet
defaults and a new record `r` differing in the VDS mode, the cycle
triggered by confirm (against a perfectly echoing device) returns to IDLE
having transmitted a single write whose payload is the packed *default*
VDS record, different from the packed `r`; every confirmation flag reads
true afterwards although the echoed data does not decode to `r`'s
`vds_mode`. -/
theorem drv8305_c1_confirm_cycle_uses_stale_config :
    drv8305_set_configuration drv8305_new_record_r = drv8305_new_record_r ∧
    drv8305_confirm_window.1.main_state = DRV8305_IDLE_STATE ∧
    drv8305_confirm_window.1.configuration_confirmation_flags =
      ⟨true, true, true, true, true, true, true⟩ ∧
    drv8305_spi_trace drv8305_confirm_window.2 =
      [drv8305_spi_write_packet_create DRV8305_CONTROL_0C
        (DRV8305_PACK_CTRL0C default_configuration.vds_sense)] ∧
    DRV8305_PACK_CTRL0C default_configuration.vds_sense ≠
      DRV8305_PACK_CTRL0C drv8305_new_record_r.vds_sense ∧
    ((drv8305_get_reg drv8305_confirm_window.1 DRV8305_CONTROL_0C_ARRAY_INDEX).data &&&
        DRV8305_CTRL0C_VDS_MODE_MASK) >>> 0 ≠
      drv8305_new_record_r.vds_sense.vds_mode := by
  decide

/-- C2 (divergence witness): only the first Control activation visits all
seven registers.  The boot activation transmits exactly the seven control
writes in the fixed order 0x05, 0x06, 0x07, 0x09, 0x0A, 0x0B, 0x0C and
returns to IDLE — but it leaves the control sub-state at VDS_SENSE, so the
next activation (triggered by a confirm-configuration call) writes only
register 0x0C before returning to IDLE instead of visiting all seven. -/
theorem drv8305_c2_second_control_activation_single_write :
    drv8305_spi_trace drv8305_boot_run.2 =
      [drv8305_spi_write_packet_create DRV8305_CONTROL_05
         (DRV8305_PACK_CTRL05 default_configuration.hs_gate_drive),
       drv8305_spi_write_packet_create DRV8305_CONTROL_06
         (DRV8305_PACK_CTRL06 default_configuration.ls_gate_drive),
       drv8305_spi_write_packet_create DRV8305_CONTROL_07
         (DRV8305_PACK_CTRL07 default_configuration.gate_drive),
       drv8305_spi_write_packet_create DRV8305_CONTROL_09
         (DRV8305_PACK_CTRL09 default_configuration.ic_operation),
       drv8305_spi_write_packet_create DRV8305_CONTROL_0A
         (DRV8305_PACK_CTRL0A default_configuration.shunt_amplifier),
       drv8305_spi_write_packet_create DRV8305_CONTROL_0B
         (DRV8305_PACK_CTRL0B default_configuration.voltage_regulator),
       drv8305_spi_write_packet_create DRV8305_CONTROL_0C
         (DRV8305_PACK_CTRL0C default_configuration.vds_sense)] ∧
    drv8305_idle_object.main_state = DRV8305_IDLE_STATE ∧
    drv8305_idle_object.control_state = DRV8305_SM_CONTROL_VDS_SENSE_REG ∧
    drv8305_confirm_window.1.main_state = DRV8305_IDLE_STATE ∧
    drv8305_spi_trace drv8305_confirm_window.2 =
      [drv8305_spi_write_packet_create DRV8305_CONTROL_0C
        (DRV8305_PACK_CTRL0C default_configuration.vds_sense)] := by
  decide

/-- C3 (divergence witness): only the first Status activation visits all
four registers.  The first activation reads WARNING, OV_VDS, IC_FAULTS and
VGS_FAULTS in order and returns to IDLE — but it leaves the status
sub-state at VGS_FAULTS, so the next activation issues a single read of
register 0x04 before returning to IDLE instead of one read per register. -/
theorem drv8305_c3_second_status_activation_single_read :
    drv8305_spi_trace drv8305_status_first_window.2 =
      [drv8305_spi_read_packet_create DRV8305_STATUS_01,
       drv8305_spi_read_packet_create DRV8305_STATUS_02,
       drv8305_spi_read_packet_create DRV8305_STATUS_03,
       drv8305_spi_read_packet_create DRV8305_STATUS_04] ∧
    drv8305_status_first_window.1.main_state = DRV8305_IDLE_STATE ∧
    drv8305_status_first_window.1.status_state =
      DRV8305_SM_STATUS_VGS_FAULTS_REG ∧
    drv8305_status_second_window.1.main_state = DRV8305_IDLE_STATE ∧
    drv8305_spi_trace drv8305_status_second_window.2 =
      [drv8305_spi_read_packet_create DRV8305_STATUS_04] := by
  decide

end DRV8305
